import Mathlib

/-!
Verification of the heatsink thermal controller.

Shallow embedding of the Go sources:
 - `dutycyclers.go` : the two duty-cycle functions (linear and power-pi).
 - `heatsink.go` : `maxCoreTemp`, `StartThermalControl`, `StopThermalControl`,
   `Config.validate`, `New`.
 - `fanpwm/driver_internal.go` and the fanpwm driver file :
   `calcDurations`, `tryGenSinglePulse`, `Driver.SetDutyCycle`, `Driver.Close`.

Go `float64` temperatures and ratios are embedded as exact rationals (`ℚ`);
the power-pi curve, whose interior uses `math.Pow(fraction, math.Pi)`, is
embedded over the reals with `Real.rpow`.  Go `time.Duration` (an `int64`
count of nanoseconds) is embedded as `ℤ`; the Go conversion
`time.Duration(aFloat)` truncates toward zero, embedded as `truncToInt`.
Device I/O is embedded as a trace of attempted operations, and fallible
device calls take their outcome (`Option ε`, `some` = the error the device
returned) as an explicit input.
-/

/-- From `dutycyclers.go`, struct `dutyCyclerLinear`: two calibration bounds
and the stored range `tRange = maxTemp - minTemp`. -/
structure DutyCyclerLinear where
  minTemp : ℚ
  maxTemp : ℚ
  tRange : ℚ
deriving DecidableEq

/-- `newDutyCyclerLinear` from `dutycyclers.go`. -/
def newDutyCyclerLinear (minTemp maxTemp : ℚ) : DutyCyclerLinear :=
  ⟨minTemp, maxTemp, maxTemp - minTemp⟩

/-- `(*dutyCyclerLinear).ratio` from `dutycyclers.go`:
`temp ≥ maxTemp → 1.0`; `temp ≤ minTemp → 0.0`; otherwise
`(temp - minTemp) / tRange`. -/
def DutyCyclerLinear.ratio (dc : DutyCyclerLinear) (temp : ℚ) : ℚ :=
  if temp ≥ dc.maxTemp then 1
  else if temp ≤ dc.minTemp then 0
  else (temp - dc.minTemp) / dc.tRange

/-- From `dutycyclers.go`, struct `dutyCyclerPowPi` (over ℝ because its
interior branch computes `math.Pow(fraction, math.Pi)`). -/
structure DutyCyclerPowPi where
  minTemp : ℝ
  maxTemp : ℝ
  tRange : ℝ

/-- `newDutyCyclerPowPi` from `dutycyclers.go`. -/
def newDutyCyclerPowPi (minTemp maxTemp : ℝ) : DutyCyclerPowPi :=
  ⟨minTemp, maxTemp, maxTemp - minTemp⟩

/-- `(*dutyCyclerPowPi).ratio` from `dutycyclers.go`:
`temp ≥ maxTemp → 1.0`; `temp ≤ minTemp → 0.0`; otherwise
`math.Pow((temp - minTemp)/tRange, math.Pi)`. -/
noncomputable def DutyCyclerPowPi.ratio (dc : DutyCyclerPowPi) (temp : ℝ) : ℝ :=
  if temp ≥ dc.maxTemp then 1
  else if temp ≤ dc.minTemp then 0
  else ((temp - dc.minTemp) / dc.tRange) ^ Real.pi

/-- `math.SmallestNonzeroFloat64`: the smallest positive nonzero float64,
`2^-1074`.  This is the initial value of the accumulator `max` in
`maxCoreTemp` (`heatsink.go` line 163). -/
def smallestNonzeroFloat64 : ℚ := 1 / 2 ^ 1074

/-- `math.MaxFloat64`, `(2^53 - 1) * 2^971`: the value `maxCoreTemp`
returns together with the aggregated error when every sensor fails. -/
def maxFloat64 : ℚ := (2 ^ 53 - 1) * 2 ^ 971

/-- Loop body of `maxCoreTemp` (`heatsink.go`): one sensor result either
appends its error to `errs` (order preserved) or bumps the accumulator
when the reading is strictly greater. -/
def mctStep {ε : Type} (acc : ℚ × List ε) (r : Except ε ℚ) : ℚ × List ε :=
  match r with
  | Except.error e => (acc.1, acc.2 ++ [e])
  | Except.ok t => (if t > acc.1 then t else acc.1, acc.2)

/-- The sensor loop of `maxCoreTemp`, folded over the per-sensor read
results with `max` initialized to `math.SmallestNonzeroFloat64`. -/
def maxCoreTempFold {ε : Type} (readings : List (Except ε ℚ)) : ℚ × List ε :=
  readings.foldl mctStep (smallestNonzeroFloat64, [])

/-- `(*Heatsink).maxCoreTemp` from `heatsink.go`: each entry of `readings`
is the result of one sensor's `Temperature()` call, in sensor order.
Returns the aggregated value and `some errs` exactly when the error count
equals the sensor count (`len(errs) == len(hs.sensors)`), in which case the
value is `math.MaxFloat64`. -/
def maxCoreTemp {ε : Type} (readings : List (Except ε ℚ)) : ℚ × Option (List ε) :=
  match maxCoreTempFold readings with
  | (mx, errs) =>
    if errs.length = readings.length then (maxFloat64, some errs)
    else (mx, none)

/-- A device operation attempted by the fanpwm driver on its `devFile`.
`writeMin` / `writeMax` stand for `setSpeedMin` / `setSpeedMax`
(`driver_internal.go`): seek to start, truncate, then write the configured
`minSpeedVal` / `maxSpeedVal` string verbatim.  `closeDev` is
`devFile.Close()`. -/
inductive DevOp where
  | writeMin
  | writeMax
  | closeDev
deriving DecidableEq

/-- The fanpwm `Driver` (`fanpwm` package): the PWM period (`time.Duration`
as nanoseconds), the closed flag (the `closeSignal` channel having been
closed, observed by `isClosed`), and the trace of device operations
attempted so far.  Channels, mutexes and the wait group serialize the Go
methods; the embedding models one serialized call at a time. -/
structure Driver where
  pwmPeriod : ℤ
  closed : Bool
  trace : List DevOp
deriving DecidableEq

/-- Go `time.Duration(aFloat64)`: conversion truncates toward zero. -/
def truncToInt (q : ℚ) : ℤ :=
  if 0 ≤ q then ⌊q⌋ else -⌊-q⌋

/-- `(*Driver).calcDurations` from `driver_internal.go`: clamp the ratio to
[0,1], `up = time.Duration(dcRatio * float64(pwmPeriod))`,
`dn = pwmPeriod - up`, `isFlatPulse = (up == pwmPeriod) || (dn == pwmPeriod)`.
Returns `(dn, up, isFlatPulse)` in the source's order. -/
def calcDurations (pwmPeriod : ℤ) (dcRatio : ℚ) : ℤ × ℤ × Bool :=
  let r := if dcRatio > 1 then 1 else if dcRatio < 0 then 0 else dcRatio
  let up := truncToInt (r * (pwmPeriod : ℚ))
  let dn := pwmPeriod - up
  (dn, up, decide (up = pwmPeriod) || decide (dn = pwmPeriod))

/-- Which device call failed inside the synchronous pulse
(`tryGenSinglePulse` wraps them as "failed to set min speed"
and "failed to set max speed"). -/
inductive PulseErr (ε : Type) where
  | setMinFailed (e : ε)
  | setMaxFailed (e : ε)
deriving DecidableEq

/-- `(*Driver).tryGenSinglePulse` from `driver_internal.go`:
`setSpeedMin` first (min-first ordering per the source comment); on error
return it; if `dn == pwmPeriod` return with no further I/O; sleep `dn`;
`setSpeedMax`; on error return it; if `up == pwmPeriod` return; sleep `up`.
`eMin` / `eMax` are the outcomes of the two device writes.  Returns the
error (if any) and the list of attempted device operations. -/
def tryGenSinglePulse {ε : Type} (pwmPeriod dn up : ℤ) (eMin eMax : Option ε) :
    Option (PulseErr ε) × List DevOp :=
  match eMin with
  | some e => (some (PulseErr.setMinFailed e), [DevOp.writeMin])
  | none =>
    if dn = pwmPeriod then (none, [DevOp.writeMin])
    else
      match eMax with
      | some e => (some (PulseErr.setMaxFailed e), [DevOp.writeMin, DevOp.writeMax])
      | none =>
        if up = pwmPeriod then (none, [DevOp.writeMin, DevOp.writeMax])
        else (none, [DevOp.writeMin, DevOp.writeMax])

/-- One full cycle of the background oscillation goroutine
(`startAsyncPWM`): `setSpeedMin`, sleep `dn`, `setSpeedMax`, sleep `up`,
then check the retire/close signals; device errors are ignored, so the
attempts happen unconditionally. -/
def bgCyclesTrace (n : ℕ) : List DevOp :=
  (List.replicate n [DevOp.writeMin, DevOp.writeMax]).flatten

/-- Result of `(*Driver).SetDutyCycle`. -/
inductive SetResult (ε : Type) where
  | ok
  | fanDriverClosed
  | pulseFailed (pe : PulseErr ε)
deriving DecidableEq

/-- `(*Driver).SetDutyCycle`: under `isBusy`, if `isClosed()` return
`heatsink.ErrFanDriverClosed` with no device I/O; otherwise retire the
current oscillation goroutine, compute `calcDurations`, run one
synchronous pulse; if it failed or the split is flat, install a no-op
goroutine (no I/O) and return; otherwise start the continuous oscillation
goroutine, which performs `bgCycles` full cycles before it is retired. -/
def Driver.SetDutyCycle {ε : Type} (dr : Driver) (dcRatio : ℚ)
    (eMin eMax : Option ε) (bgCycles : ℕ) : SetResult ε × Driver :=
  if dr.closed then (SetResult.fanDriverClosed, dr)
  else
    match calcDurations dr.pwmPeriod dcRatio with
    | (dn, up, isFlatPulse) =>
      match tryGenSinglePulse dr.pwmPeriod dn up eMin eMax with
      | (some pe, pulseTrace) =>
        (SetResult.pulseFailed pe, { dr with trace := dr.trace ++ pulseTrace })
      | (none, pulseTrace) =>
        if isFlatPulse then
          (SetResult.ok, { dr with trace := dr.trace ++ pulseTrace })
        else
          (SetResult.ok,
            { dr with trace := dr.trace ++ pulseTrace ++ bgCyclesTrace bgCycles })

/-- Result of `(*Driver).Close`. -/
inductive CloseResult (ε : Type) where
  | ok
  | fanDriverClosed
  | setMaxFailed (e : ε)
  | devCloseFailed (e : ε)
deriving DecidableEq

/-- `(*Driver).Close`: under `closeMutex`, if `isClosed()` return
`heatsink.ErrFanDriverClosed` with no side effects; otherwise close the
close signal (the driver is now irreversibly closed), wait for all
goroutines, then `err1 := setSpeedMax()`, `err2 := devFile.Close()` —
both attempted unconditionally — and return the wrap of `err1` when it is
non-nil, else the wrap of `err2` when it is non-nil, else nil. -/
def Driver.Close {ε : Type} (dr : Driver) (eMax eClose : Option ε) :
    CloseResult ε × Driver :=
  if dr.closed then (CloseResult.fanDriverClosed, dr)
  else
    let dr' : Driver :=
      { dr with closed := true, trace := dr.trace ++ [DevOp.writeMax, DevOp.closeDev] }
    match eMax with
    | some e => (CloseResult.setMaxFailed e, dr')
    | none =>
      match eClose with
      | some e => (CloseResult.devCloseFailed e, dr')
      | none => (CloseResult.ok, dr')

/-- The underlying device errors that a `CloseResult` reports to the
caller (each error wrap in the source carries exactly one cause). -/
def CloseResult.reported {ε : Type} : CloseResult ε → List ε
  | CloseResult.setMaxFailed e => [e]
  | CloseResult.devCloseFailed e => [e]
  | _ => []

/-- Nearest-integer rounding, formalizing the specification's
`up = round(ratio * period)` wording; compared against the source's
`truncToInt`. -/
def specRoundNearest (q : ℚ) : ℤ := ⌊q + 1 / 2⌋

/-- Resource-lifecycle view of a `Heatsink` (`heatsink.go`): whether
`isStopped` has been closed, and how many times the fan and each sensor
(in configuration order) have been closed. -/
structure HsState where
  stopped : Bool
  fanCloseCount : ℕ
  sensorCloseCounts : List ℕ
deriving DecidableEq

/-- Result of `(*Heatsink).StopThermalControl`. -/
inductive StopResult (ε : Type) where
  | ok
  | controllerStopped
  | multi (errs : List ε)
deriving DecidableEq

/-- The error list `StopThermalControl` accumulates: the fan close error
first (wrapped "error closing fan"), then each sensor close error in
original sensor order (wrapped "error closing sensor"). -/
def closeErrs {ε : Type} (fanErr : Option ε) (sensorErrs : List (Option ε)) : List ε :=
  fanErr.toList ++ sensorErrs.reduceOption

/-- `(*Heatsink).StopThermalControl` from `heatsink.go`: under
`closeMutex`, if `isStopped` is already closed return
`ErrControllerStopped` with no side effects; otherwise close `isStopped`,
close the fan, then close every sensor in order, collecting all failures;
return them as one `multiErrs` when non-empty, else nil.  `fanErr` and
`sensorErrs` are the outcomes of the individual `Close()` calls. -/
def stopThermalControl {ε : Type} (st : HsState) (fanErr : Option ε)
    (sensorErrs : List (Option ε)) : StopResult ε × HsState :=
  if st.stopped then (StopResult.controllerStopped, st)
  else
    let st' : HsState :=
      { stopped := true
        fanCloseCount := st.fanCloseCount + 1
        sensorCloseCounts := st.sensorCloseCounts.map (· + 1) }
    if 0 < (closeErrs fanErr sensorErrs).length then
      (StopResult.multi (closeErrs fanErr sensorErrs), st')
    else (StopResult.ok, st')

deriving instance DecidableEq for Except

/-- The environment of one iteration of the `StartThermalControl` loop:
whether the non-blocking select observes `isStopped` as closed, the
per-sensor `Temperature()` results, and the outcome of the
`fan.SetDutyCycle` call (unused when the iteration aborts earlier). -/
structure CycleInput (ε : Type) where
  stopObserved : Bool
  readings : List (Except ε ℚ)
  fanErr : Option ε
deriving DecidableEq

/-- How the `StartThermalControl` loop exits: still running when the
(finite) schedule of iterations is exhausted, or the exit its control flow
takes: the stop signal observed, `maxCoreTemp` failed (all sensors
errored), or `fan.SetDutyCycle` failed. -/
inductive LoopExit (ε : Type) where
  | stillRunning
  | stopSignal
  | sensorsFailed (errs : List ε)
  | fanFailed (e : ε)
deriving DecidableEq

/-- The `loop` of `StartThermalControl` (`heatsink.go` lines 105-124) run
over a finite schedule of iteration environments: check the stop signal
non-blockingly; compute `maxCoreTemp` and abort on its error; call
`fan.SetDutyCycle` with the computed ratio and abort on its error;
otherwise sleep `chkPeriod` and iterate. -/
def runControlLoop {ε : Type} : List (CycleInput ε) → LoopExit ε
  | [] => LoopExit.stillRunning
  | c :: rest =>
    if c.stopObserved then LoopExit.stopSignal
    else
      match maxCoreTemp c.readings with
      | (_, some errs) => LoopExit.sensorsFailed errs
      | (_, none) =>
        match c.fanErr with
        | some e => LoopExit.fanFailed e
        | none => runControlLoop rest

/-- The error `StartThermalControl` returns: the `ErrControllerStopped`
sentinel, the wrap "determining max core temperature" around the
aggregated sensor errors, or the wrap "setting fan's duty cycle" around
the fan error. -/
inductive CtrlErr (ε : Type) where
  | controllerStopped
  | maxCoreTempFailed (errs : List ε)
  | setDutyCycleFailed (e : ε)
deriving DecidableEq

/-- `(*Heatsink).StartThermalControl` from `heatsink.go`: run the loop; on
every exit the deferred cleanup calls `StopThermalControl` (its error is
logged, never returned, so only its state effect remains); the returned
error is `ErrControllerStopped` when the loop broke on the stop signal,
and the wrapped loop error otherwise.  `none` means the schedule ended
with the loop still running (the call has not returned). -/
def startThermalControl {ε : Type} (st : HsState) (cycles : List (CycleInput ε))
    (fanCloseErr : Option ε) (sensorCloseErrs : List (Option ε)) :
    Option (CtrlErr ε) × HsState :=
  match runControlLoop cycles with
  | LoopExit.stillRunning => (none, st)
  | LoopExit.stopSignal =>
    (some CtrlErr.controllerStopped,
      (stopThermalControl st fanCloseErr sensorCloseErrs).2)
  | LoopExit.sensorsFailed errs =>
    (some (CtrlErr.maxCoreTempFailed errs),
      (stopThermalControl st fanCloseErr sensorCloseErrs).2)
  | LoopExit.fanFailed e =>
    (some (CtrlErr.setDutyCycleFailed e),
      (stopThermalControl st fanCloseErr sensorCloseErrs).2)

/-- `Config` from the heatsink package: the fan's presence (`Fan == nil`
in Go), the sensor slice — `none` models a nil entry, `some k` a sensor
handle with identity `k` — and the two temperature bounds. -/
structure Config where
  fanPresent : Bool
  sensors : List (Option ℕ)
  minTemperature : ℚ
  maxTemperature : ℚ
deriving DecidableEq

/-- The error `(*Config).validate` returns. -/
inductive ConfigErr where
  | noFan
  | noSensors
  | nilSensor
  | badTemps
deriving DecidableEq

/-- `(*Config).validate`: `Fan == nil → errNoFan`;
`len(Sensors) == 0 → errNoSensors`; any nil sensor → `errNilSensor`;
`MinTemperature >= MaxTemperature → errBadTemps`; else nil. -/
def Config.validate (c : Config) : Option ConfigErr :=
  if c.fanPresent = false then some ConfigErr.noFan
  else if c.sensors.length = 0 then some ConfigErr.noSensors
  else if none ∈ c.sensors then some ConfigErr.nilSensor
  else if c.minTemperature ≥ c.maxTemperature then some ConfigErr.badTemps
  else none

/-- The error `New` returns: `errNoConfig` for a nil config, or the
wrapped validation error. -/
inductive NewErr where
  | noConfig
  | invalidConfiguration (e : ConfigErr)
deriving DecidableEq

/-- The fields of the constructed `Heatsink` value that `Config`
determines (the rest are defaults or options). -/
structure HeatsinkObj where
  sensors : List (Option ℕ)
  minTemperature : ℚ
  maxTemperature : ℚ
deriving DecidableEq

/-- `New` from `heatsink.go`: nil config → `errNoConfig`; a failing
`validate` → "invalid configuration" wrap and no heatsink; otherwise the
heatsink is built (with a copy of the sensor slice). -/
def New (config : Option Config) : Except NewErr HeatsinkObj :=
  match config with
  | none => Except.error NewErr.noConfig
  | some c =>
    match c.validate with
    | some e => Except.error (NewErr.invalidConfiguration e)
    | none => Except.ok ⟨c.sensors, c.minTemperature, c.maxTemperature⟩

/-- Go `time.Duration(float64(n))` round-trips integers. -/
theorem truncToInt_intCast (n : ℤ) : truncToInt (n : ℚ) = n := by
  unfold truncToInt
  rcases le_or_lt 0 ((n : ℚ)) with h | h
  · rw [if_pos h, Int.floor_intCast]
  · rw [if_neg (not_le.mpr h), ← Int.cast_neg, Int.floor_intCast, neg_neg]

/-- The sensor loop of `maxCoreTemp` on a list of failing reads: the
accumulator is untouched and the errors are appended in order. -/
theorem maxCoreTempFold_all_errors {ε : Type} (es : List ε) (acc : ℚ × List ε) :
    (es.map Except.error).foldl mctStep acc = (acc.1, acc.2 ++ es) := by
  induction es generalizing acc with
  | nil => simp
  | cons e es ih =>
    simp only [List.map_cons, List.foldl_cons, mctStep]
    rw [ih]
    simp

/-- When every sensor read fails, `maxCoreTemp` returns `math.MaxFloat64`
together with the per-sensor errors in original order. -/
theorem maxCoreTemp_all_errors {ε : Type} (es : List ε) :
    maxCoreTemp (es.map Except.error) = (maxFloat64, some es) := by
  unfold maxCoreTemp maxCoreTempFold
  rw [maxCoreTempFold_all_errors]
  simp

/-- C1: the claim states that whenever at least one sensor read succeeds,
the temperature fed to the duty-cycle function equals the maximum over
the successful readings, including negative readings.  The code
initializes the accumulator to `math.SmallestNonzeroFloat64 = 2^-1074`,
which is positive, so a single successful reading of `-5` yields
`2^-1074` (with no error), not `-5`: the maximum over successful readings
is not returned for negative readings. -/
theorem C1_negative_reading_divergence :
    (maxCoreTemp ([Except.ok (-5)] : List (Except Unit ℚ))).2 = none
  ∧ (maxCoreTemp ([Except.ok (-5)] : List (Except Unit ℚ))).1 = smallestNonzeroFloat64
  ∧ smallestNonzeroFloat64 ≠ (-5 : ℚ) := by
  have h0 : (0 : ℚ) < smallestNonzeroFloat64 := by
    unfold smallestNonzeroFloat64
    positivity
  have hlt : (-5 : ℚ) < smallestNonzeroFloat64 := by linarith
  have hcomp : maxCoreTemp ([Except.ok (-5)] : List (Except Unit ℚ))
      = (smallestNonzeroFloat64, none) := by
    unfold maxCoreTemp maxCoreTempFold
    simp [mctStep, not_lt.mpr hlt.le]
  refine ⟨by rw [hcomp], by rw [hcomp], Ne.symm (ne_of_lt hlt)⟩

/-- C4 counterexample: the claim computes `up = round(ratio * period)`,
but the source truncates (`time.Duration(dcRatio * float64(pwmPeriod))`).
At ratio `3/4`, period `2` ns, the exact product is `1.5`: the code yields
`up = 1` while nearest rounding yields `2`. -/
theorem C4_counterexample :
    (calcDurations 2 (3 / 4)).2.1 = 1
  ∧ specRoundNearest (max 0 (min 1 (3 / 4 : ℚ)) * ((2 : ℤ) : ℚ)) = 2
  ∧ (1 : ℤ) ≠ 2 := by
  refine ⟨?_, ?_, by decide⟩
  · norm_num [calcDurations, truncToInt]
  · norm_num [specRoundNearest]

/-- C4 (amended): for every ratio `r` and period, the driver clamps `r`
to `max 0 (min 1 r)`, computes `up` as the *truncation* of
`r' * period` (not nearest rounding), sets `down = period - up`, and so
`up + down = period` always holds. -/
theorem C4_clamp_trunc_split (pwmPeriod : ℤ) (dcRatio : ℚ) :
    (calcDurations pwmPeriod dcRatio).2.1
        = truncToInt (max 0 (min 1 dcRatio) * (pwmPeriod : ℚ))
  ∧ (calcDurations pwmPeriod dcRatio).1
        = pwmPeriod - (calcDurations pwmPeriod dcRatio).2.1
  ∧ (calcDurations pwmPeriod dcRatio).2.1 + (calcDurations pwmPeriod dcRatio).1
        = pwmPeriod := by
  have hclamp : (if dcRatio > 1 then (1 : ℚ) else if dcRatio < 0 then 0 else dcRatio)
      = max 0 (min 1 dcRatio) := by
    rcases lt_or_le 1 dcRatio with h1 | h1
    · rw [if_pos h1, min_eq_left h1.le, max_eq_right zero_le_one]
    · rw [if_neg (not_lt.mpr h1)]
      rcases lt_or_le dcRatio 0 with h2 | h2
      · rw [if_pos h2, min_eq_right h1, max_eq_left h2.le]
      · rw [if_neg (not_lt.mpr h2), min_eq_right h1, max_eq_right h2]
  refine ⟨?_, rfl, ?_⟩
  · simp only [calcDurations, hclamp]
  · simp only [calcDurations]
    omega

/-- C5: the linear duty-cycle function equals
`clamp((t - minTemp)/(maxTemp - minTemp), 0, 1)`; both the linear and the
power-pi variants return exactly 0 at or below `minTemp` and exactly 1 at
or above `maxTemp`, and never a value outside `[0, 1]`. -/
theorem C5_duty_cycle_functions :
    (∀ mn mx t : ℚ, mn < mx →
        (newDutyCyclerLinear mn mx).ratio t = max 0 (min 1 ((t - mn) / (mx - mn))))
  ∧ (∀ mn mx t : ℚ, mn < mx → t ≤ mn → (newDutyCyclerLinear mn mx).ratio t = 0)
  ∧ (∀ mn mx t : ℚ, mx ≤ t → (newDutyCyclerLinear mn mx).ratio t = 1)
  ∧ (∀ mn mx t : ℝ, mn < mx → t ≤ mn → (newDutyCyclerPowPi mn mx).ratio t = 0)
  ∧ (∀ mn mx t : ℝ, mx ≤ t → (newDutyCyclerPowPi mn mx).ratio t = 1)
  ∧ (∀ mn mx t : ℚ, 0 ≤ (newDutyCyclerLinear mn mx).ratio t
        ∧ (newDutyCyclerLinear mn mx).ratio t ≤ 1)
  ∧ (∀ mn mx t : ℝ, 0 ≤ (newDutyCyclerPowPi mn mx).ratio t
        ∧ (newDutyCyclerPowPi mn mx).ratio t ≤ 1) := by
  refine ⟨?_, ?_, ?_, ?_, ?_, ?_, ?_⟩
  · intro mn mx t hlt
    simp only [newDutyCyclerLinear, DutyCyclerLinear.ratio]
    by_cases h1 : t ≥ mx
    · rw [if_pos h1]
      have hr : (1 : ℚ) ≤ (t - mn) / (mx - mn) :=
        (one_le_div (by linarith)).mpr (by linarith)
      rw [min_eq_left hr, max_eq_right zero_le_one]
    · rw [if_neg h1]
      by_cases h2 : t ≤ mn
      · rw [if_pos h2]
        have hr : (t - mn) / (mx - mn) ≤ 0 :=
          div_nonpos_iff.mpr (Or.inr ⟨by linarith, by linarith⟩)
        rw [min_eq_right (hr.trans zero_le_one), max_eq_left hr]
      · rw [if_neg h2]
        have h0 : (0 : ℚ) ≤ (t - mn) / (mx - mn) :=
          div_nonneg (by linarith [not_le.mp h2]) (by linarith)
        have hle : (t - mn) / (mx - mn) ≤ 1 :=
          (div_le_one (by linarith)).mpr (by linarith [not_le.mp h1])
        rw [min_eq_right hle, max_eq_right h0]
  · intro mn mx t hlt ht
    simp only [newDutyCyclerLinear, DutyCyclerLinear.ratio]
    rw [if_neg (by simp only [ge_iff_le, not_le]; linarith), if_pos ht]
  · intro mn mx t ht
    simp only [newDutyCyclerLinear, DutyCyclerLinear.ratio]
    rw [if_pos ht]
  · intro mn mx t hlt ht
    simp only [newDutyCyclerPowPi, DutyCyclerPowPi.ratio]
    rw [if_neg (by simp only [ge_iff_le, not_le]; linarith), if_pos ht]
  · intro mn mx t ht
    simp only [newDutyCyclerPowPi, DutyCyclerPowPi.ratio]
    rw [if_pos ht]
  · intro mn mx t
    simp only [newDutyCyclerLinear, DutyCyclerLinear.ratio]
    split_ifs with h1 h2
    · norm_num
    · norm_num
    · have hmnt : mn < t := not_le.mp h2
      have htmx : t < mx := not_le.mp h1
      constructor
      · exact div_nonneg (by linarith) (by linarith)
      · exact (div_le_one (by linarith)).mpr (by linarith)
  · intro mn mx t
    simp only [newDutyCyclerPowPi, DutyCyclerPowPi.ratio]
    split_ifs with h1 h2
    · norm_num
    · norm_num
    · have hmnt : mn < t := not_le.mp h2
      have htmx : t < mx := not_le.mp h1
      have hx0 : (0 : ℝ) ≤ (t - mn) / (mx - mn) :=
        div_nonneg (by linarith) (by linarith)
      have hx1 : (t - mn) / (mx - mn) ≤ 1 :=
        (div_le_one (by linarith)).mpr (by linarith)
      exact ⟨Real.rpow_nonneg hx0 _, Real.rpow_le_one hx0 hx1 Real.pi_pos.le⟩

/-- Witness for C5 at the spec's sample calibration `(10, 20)`. -/
theorem C5_duty_cycle_functions_witness :
    ((10 : ℚ) < 20
      ∧ (newDutyCyclerLinear 10 20).ratio 15 = max 0 (min 1 ((15 - 10) / (20 - 10))))
  ∧ (newDutyCyclerLinear 10 20).ratio 9 = 0
  ∧ (newDutyCyclerLinear 10 20).ratio 25 = 1
  ∧ (newDutyCyclerPowPi 10 20).ratio 9 = 0
  ∧ (newDutyCyclerPowPi 10 20).ratio 25 = 1
  ∧ (0 ≤ (newDutyCyclerLinear 10 20).ratio 15 ∧ (newDutyCyclerLinear 10 20).ratio 15 ≤ 1)
  ∧ (0 ≤ (newDutyCyclerPowPi 10 20).ratio 16 ∧ (newDutyCyclerPowPi 10 20).ratio 16 ≤ 1) :=
  ⟨⟨by norm_num, C5_duty_cycle_functions.1 10 20 15 (by norm_num)⟩,
   C5_duty_cycle_functions.2.1 10 20 9 (by norm_num) (by norm_num),
   C5_duty_cycle_functions.2.2.1 10 20 25 (by norm_num),
   C5_duty_cycle_functions.2.2.2.1 10 20 9 (by norm_num) (by norm_num),
   C5_duty_cycle_functions.2.2.2.2.1 10 20 25 (by norm_num),
   C5_duty_cycle_functions.2.2.2.2.2.1 10 20 15,
   C5_duty_cycle_functions.2.2.2.2.2.2 10 20 16⟩

/-- C2 counterexample: the claim states `SetDutyCycle(1.0)` causes only
the maximum level value to be written, but the synchronous pulse always
writes the minimum level first (`tryGenSinglePulse`, min-first by design),
so at ratio `1.0` the device receives a minimum-level write followed by a
maximum-level write. -/
theorem C2_counterexample :
    ((Driver.mk 50000000 false []).SetDutyCycle 1 (none : Option Unit) none 0).2.trace
        = [DevOp.writeMin, DevOp.writeMax]
  ∧ DevOp.writeMin
      ∈ ((Driver.mk 50000000 false []).SetDutyCycle 1 (none : Option Unit) none 0).2.trace
  ∧ DevOp.writeMin ≠ DevOp.writeMax := by
  have hc : calcDurations 50000000 1 = (0, 50000000, true) := by
    norm_num [calcDurations, truncToInt]
  have ht : ((Driver.mk 50000000 false []).SetDutyCycle 1 (none : Option Unit) none 0).2.trace
      = [DevOp.writeMin, DevOp.writeMax] := by
    simp [Driver.SetDutyCycle, hc, tryGenSinglePulse]
  refine ⟨ht, by rw [ht]; simp, by simp⟩

/-- C2 (amended): for an open driver with a positive period,
`SetDutyCycle(0.0)` attempts only minimum-level writes (exactly one, from
the synchronous pulse; no background oscillation follows), whatever the
device outcomes; `SetDutyCycle(1.0)` with successful I/O attempts exactly
one minimum-level write followed by one maximum-level write (the
min-first synchronous pulse) and starts no background oscillation, so the
device is left at the maximum level. -/
theorem C2_extreme_ratios {ε : Type} (dr : Driver) (h : dr.closed = false)
    (hp : 0 < dr.pwmPeriod) (eMin eMax : Option ε) (n m : ℕ) :
    (dr.SetDutyCycle 0 eMin eMax n).2.trace = dr.trace ++ [DevOp.writeMin]
  ∧ (dr.SetDutyCycle 1 (none : Option ε) none m).2.trace
      = dr.trace ++ [DevOp.writeMin, DevOp.writeMax] := by
  have c0 : calcDurations dr.pwmPeriod 0 = (dr.pwmPeriod, 0, true) := by
    unfold calcDurations truncToInt
    norm_num
  have c1 : calcDurations dr.pwmPeriod 1 = (0, dr.pwmPeriod, true) := by
    unfold calcDurations
    norm_num [truncToInt_intCast]
  constructor
  · cases eMin with
    | some e => simp [Driver.SetDutyCycle, h, c0, tryGenSinglePulse]
    | none => simp [Driver.SetDutyCycle, h, c0, tryGenSinglePulse]
  · simp [Driver.SetDutyCycle, h, c1, tryGenSinglePulse, hp.ne]

/-- Witness for C2 (amended) on the driver's default 50 ms period. -/
theorem C2_extreme_ratios_witness :
    ((Driver.mk 50000000 false [] : Driver).closed = false ∧ (0 : ℤ) < 50000000)
  ∧ ((Driver.mk 50000000 false []).SetDutyCycle 0 (some 3) (none : Option ℕ) 2).2.trace
        = [] ++ [DevOp.writeMin]
  ∧ ((Driver.mk 50000000 false []).SetDutyCycle 1 (none : Option ℕ) none 5).2.trace
        = [] ++ [DevOp.writeMin, DevOp.writeMax] :=
  ⟨⟨rfl, by norm_num⟩,
   C2_extreme_ratios (Driver.mk 50000000 false []) rfl (by norm_num) (some 3) none 2 5⟩

/-- C3 counterexample: the claim states that when both the final
`setSpeedMax` and the device-file close fail, the returned error reports
all encountered errors, first-detected first.  The source returns only the
wrap of the first error (`err1`) and drops `err2`: the reported list is
`[0]`, not `[0, 1]`. -/
theorem C3_counterexample :
    ((Driver.mk 50000000 false []).Close (some 0) (some 1)).1.reported = [(0 : ℕ)]
  ∧ ([(0 : ℕ)] : List ℕ) ≠ [0, 1] := by
  refine ⟨?_, by simp⟩
  simp [Driver.Close, CloseResult.reported]

/-- C3 (amended): on the first call, `Driver.Close` commands the maximum
level and then closes the device handle; both steps are attempted even if
the first fails; the returned error reports only the first-detected
error — the `setSpeedMax` failure when present, else the device-close
failure — and the call succeeds when neither fails. -/
theorem C3_close_failsafe {ε : Type} (dr : Driver) (h : dr.closed = false)
    (e1 e2 : Option ε) :
    (dr.Close e1 e2).2.closed = true
  ∧ (dr.Close e1 e2).2.trace = dr.trace ++ [DevOp.writeMax, DevOp.closeDev]
  ∧ (dr.Close e1 e2).1.reported
      = (match e1 with
         | some a => [a]
         | none => e2.toList)
  ∧ (e1 = none → e2 = none → (dr.Close e1 e2).1 = CloseResult.ok) := by
  cases e1 <;> cases e2 <;>
    simp [Driver.Close, CloseResult.reported, h]

/-- Witness for C3 (amended): both device teardown steps fail. -/
theorem C3_close_failsafe_witness :
    (Driver.mk 50000000 false [] : Driver).closed = false
  ∧ ((Driver.mk 50000000 false []).Close (some 4) (some 5)).2.closed = true
  ∧ ((Driver.mk 50000000 false []).Close (some 4) (some 5)).2.trace
      = [] ++ [DevOp.writeMax, DevOp.closeDev]
  ∧ ((Driver.mk 50000000 false []).Close (some 4) (some 5)).1.reported = [(4 : ℕ)]
  ∧ (some 4 = (none : Option ℕ) → some 5 = (none : Option ℕ) →
      ((Driver.mk 50000000 false []).Close (some 4) (some 5)).1 = CloseResult.ok) :=
  ⟨rfl, C3_close_failsafe (Driver.mk 50000000 false []) rfl (some 4) (some 5)⟩

/-- C8: once the driver is closed, `SetDutyCycle` and `Close` both return
the fan-driver-closed error immediately, with no device I/O and no state
change whatsoever. -/
theorem C8_closed_no_io {ε : Type} (dr : Driver) (h : dr.closed = true) (dcRatio : ℚ)
    (e1 e2 e3 e4 : Option ε) (n : ℕ) :
    dr.SetDutyCycle dcRatio e1 e2 n = (SetResult.fanDriverClosed, dr)
  ∧ dr.Close e3 e4 = (CloseResult.fanDriverClosed, dr) := by
  constructor
  · simp [Driver.SetDutyCycle, h]
  · simp [Driver.Close, h]

/-- Witness for C8 on a closed driver with a non-empty I/O history. -/
theorem C8_closed_no_io_witness :
    (Driver.mk 50000000 true [DevOp.writeMin] : Driver).closed = true
  ∧ (Driver.mk 50000000 true [DevOp.writeMin]).SetDutyCycle (1 / 2) (some 1)
        (none : Option ℕ) 3
      = (SetResult.fanDriverClosed, Driver.mk 50000000 true [DevOp.writeMin])
  ∧ (Driver.mk 50000000 true [DevOp.writeMin]).Close (none : Option ℕ) (some 2)
      = (CloseResult.fanDriverClosed, Driver.mk 50000000 true [DevOp.writeMin]) :=
  ⟨rfl, C8_closed_no_io (Driver.mk 50000000 true [DevOp.writeMin]) rfl (1 / 2)
    (some 1) none none (some 2) 3⟩

/-- C6: in a control cycle where every sensor read fails,
`StartThermalControl` returns the aggregated error with one entry per
sensor, in original sensor order, and the deferred cleanup leaves the
controller stopped with every resource closed. -/
theorem C6_all_sensors_fail {ε : Type} (st : HsState) (h : st.stopped = false)
    (es : List ε) (rest : List (CycleInput ε)) (fe fce : Option ε)
    (sce : List (Option ε)) :
    runControlLoop (CycleInput.mk false (es.map Except.error) fe :: rest)
        = LoopExit.sensorsFailed es
  ∧ (startThermalControl st (CycleInput.mk false (es.map Except.error) fe :: rest)
        fce sce).1 = some (CtrlErr.maxCoreTempFailed es)
  ∧ (startThermalControl st (CycleInput.mk false (es.map Except.error) fe :: rest)
        fce sce).2.stopped = true
  ∧ (startThermalControl st (CycleInput.mk false (es.map Except.error) fe :: rest)
        fce sce).2.fanCloseCount = st.fanCloseCount + 1
  ∧ (startThermalControl st (CycleInput.mk false (es.map Except.error) fe :: rest)
        fce sce).2.sensorCloseCounts = st.sensorCloseCounts.map (· + 1) := by
  have hloop : runControlLoop (CycleInput.mk false (es.map Except.error) fe :: rest)
      = LoopExit.sensorsFailed es := by
    simp [runControlLoop, maxCoreTemp_all_errors]
  have hstop : (stopThermalControl st fce sce).2
      = HsState.mk true (st.fanCloseCount + 1) (st.sensorCloseCounts.map (· + 1)) := by
    by_cases hc : 0 < (closeErrs fce sce).length <;>
      simp [stopThermalControl, h, hc]
  refine ⟨hloop, ?_, ?_, ?_, ?_⟩ <;>
    simp [startThermalControl, hloop, hstop]

/-- Witness for C6: two sensors, both failing. -/
theorem C6_all_sensors_fail_witness :
    (HsState.mk false 0 [0, 0]).stopped = false
  ∧ runControlLoop (CycleInput.mk false ([7, 9].map Except.error) none
        :: ([] : List (CycleInput ℕ)))
      = LoopExit.sensorsFailed [7, 9]
  ∧ (startThermalControl (HsState.mk false 0 [0, 0])
        (CycleInput.mk false ([7, 9].map Except.error) none :: ([] : List (CycleInput ℕ)))
        none []).1 = some (CtrlErr.maxCoreTempFailed [7, 9])
  ∧ (startThermalControl (HsState.mk false 0 [0, 0])
        (CycleInput.mk false ([7, 9].map Except.error) none :: ([] : List (CycleInput ℕ)))
        none []).2.stopped = true
  ∧ (startThermalControl (HsState.mk false 0 [0, 0])
        (CycleInput.mk false ([7, 9].map Except.error) none :: ([] : List (CycleInput ℕ)))
        none []).2.fanCloseCount = (HsState.mk false 0 [0, 0]).fanCloseCount + 1
  ∧ (startThermalControl (HsState.mk false 0 [0, 0])
        (CycleInput.mk false ([7, 9].map Except.error) none :: ([] : List (CycleInput ℕ)))
        none []).2.sensorCloseCounts
      = (HsState.mk false 0 [0, 0]).sensorCloseCounts.map (· + 1) :=
  ⟨rfl, C6_all_sensors_fail (HsState.mk false 0 [0, 0]) rfl [7, 9] [] none none []⟩

/-- C7: `StopThermalControl` is idempotent: the first call marks the
controller stopped, closes the fan and every sensor exactly once
(collecting the fan failure first, then sensor failures in original
order, into one aggregated error), and every subsequent call returns the
controller-stopped sentinel with no further state change. -/
theorem C7_stop_idempotent {ε : Type} (st : HsState) (h : st.stopped = false)
    (fe fe2 : Option ε) (ses ses2 : List (Option ε)) :
    (stopThermalControl st fe ses).2.stopped = true
  ∧ (stopThermalControl st fe ses).2.fanCloseCount = st.fanCloseCount + 1
  ∧ (stopThermalControl st fe ses).2.sensorCloseCounts
      = st.sensorCloseCounts.map (· + 1)
  ∧ (stopThermalControl st fe ses).1
      = (if 0 < (closeErrs fe ses).length then StopResult.multi (closeErrs fe ses)
         else StopResult.ok)
  ∧ stopThermalControl (stopThermalControl st fe ses).2 fe2 ses2
      = (StopResult.controllerStopped, (stopThermalControl st fe ses).2) := by
  have hstate : (stopThermalControl st fe ses).2
      = HsState.mk true (st.fanCloseCount + 1) (st.sensorCloseCounts.map (· + 1)) := by
    by_cases hc : 0 < (closeErrs fe ses).length <;>
      simp [stopThermalControl, h, hc]
  refine ⟨by rw [hstate], by rw [hstate], by rw [hstate], ?_, ?_⟩
  · by_cases hc : 0 < (closeErrs fe ses).length <;>
      simp [stopThermalControl, h, hc]
  · rw [hstate]
    simp [stopThermalControl]

/-- Witness for C7 with one sensor; the fan close and the sensor close
both fail, so the first call aggregates two errors. -/
theorem C7_stop_idempotent_witness :
    (HsState.mk false 0 [0]).stopped = false
  ∧ (stopThermalControl (HsState.mk false 0 [0]) (some 7) [some 8]).2.stopped = true
  ∧ (stopThermalControl (HsState.mk false 0 [0]) (some 7) [some 8]).2.fanCloseCount
      = (HsState.mk false 0 [0]).fanCloseCount + 1
  ∧ (stopThermalControl (HsState.mk false 0 [0]) (some 7) [some 8]).2.sensorCloseCounts
      = (HsState.mk false 0 [0]).sensorCloseCounts.map (· + 1)
  ∧ (stopThermalControl (HsState.mk false 0 [0]) (some 7) [some 8]).1
      = (if 0 < (closeErrs (some 7) [some 8]).length
         then StopResult.multi (closeErrs (some 7) [some 8])
         else StopResult.ok)
  ∧ stopThermalControl (stopThermalControl (HsState.mk false 0 [0]) (some 7) [some 8]).2
        (none : Option ℕ) []
      = (StopResult.controllerStopped,
         (stopThermalControl (HsState.mk false 0 [0]) (some 7) [some 8]).2) :=
  ⟨rfl, C7_stop_idempotent (HsState.mk false 0 [0]) rfl (some 7) none [some 8] []⟩

/-- C9 counterexample: the claim states construction fails when a sensor
is duplicated, but `Config.validate` has no duplicate check: a
configuration whose sensor slice repeats the same handle validates and
`New` succeeds. -/
theorem C9_counterexample :
    New (some (Config.mk true [some 1, some 1] 10 20))
        = Except.ok (HeatsinkObj.mk [some 1, some 1] 10 20)
  ∧ ¬ ([some 1, some 1] : List (Option ℕ)).Nodup := by
  constructor
  · norm_num [New, Config.validate]
    simp
  · simp

/-- C9 (amended): `New` fails exactly when the config is absent, the
actuator is missing, the sensor list is empty, a sensor is nil, or the
bounds violate `minTemp < maxTemp`; duplicated sensors are accepted.  On
any failure no heatsink is returned. -/
theorem C9_construction_validation (c : Config) :
    New none = Except.error NewErr.noConfig
  ∧ ((∃ h, New (some c) = Except.ok h) ↔
      (c.fanPresent = true ∧ c.sensors ≠ [] ∧ none ∉ c.sensors
        ∧ c.minTemperature < c.maxTemperature)) := by
  refine ⟨rfl, ?_⟩
  have hv : c.validate = none ↔
      (c.fanPresent = true ∧ c.sensors ≠ [] ∧ none ∉ c.sensors
        ∧ c.minTemperature < c.maxTemperature) := by
    unfold Config.validate
    split_ifs with h1 h2 h3 h4
    · simp [h1]
    · simp [List.length_eq_zero.mp h2]
    · simp [h3]
    · simp [not_lt.mpr h4]
    · have hfan : c.fanPresent = true := by
        cases hfp : c.fanPresent
        · exact absurd hfp h1
        · rfl
      have hne : c.sensors ≠ [] := by
        intro hnil
        exact h2 (by simp [hnil])
      have hlt : c.minTemperature < c.maxTemperature := not_le.mp h4
      simp [hfan, hne, h3, hlt]
  have hn : (∃ h, New (some c) = Except.ok h) ↔ c.validate = none := by
    cases hv2 : c.validate with
    | none => simp [New, hv2]
    | some e => simp [New, hv2]
  exact hn.trans hv

/-- Witness for C9 (amended) at a valid single-sensor configuration. -/
theorem C9_construction_validation_witness :
    New none = Except.error NewErr.noConfig
  ∧ ((∃ h, New (some (Config.mk true [some 1] 10 20)) = Except.ok h) ↔
      ((Config.mk true [some 1] 10 20).fanPresent = true
        ∧ (Config.mk true [some 1] 10 20).sensors ≠ []
        ∧ none ∉ (Config.mk true [some 1] 10 20).sensors
        ∧ (Config.mk true [some 1] 10 20).minTemperature
            < (Config.mk true [some 1] 10 20).maxTemperature)) :=
  C9_construction_validation (Config.mk true [some 1] 10 20)

/-- C10: `StartThermalControl` returns a non-nil error on every exit of
its loop, and when the loop exits because the stop signal was observed it
returns the controller-stopped sentinel. -/
theorem C10_always_errors {ε : Type} (st : HsState) (cycles : List (CycleInput ε))
    (fce : Option ε) (sce : List (Option ε)) :
    ((startThermalControl st cycles fce sce).1 = none
        ↔ runControlLoop cycles = LoopExit.stillRunning)
  ∧ (runControlLoop cycles = LoopExit.stopSignal →
      (startThermalControl st cycles fce sce).1 = some CtrlErr.controllerStopped) := by
  cases hl : runControlLoop cycles <;> simp [startThermalControl, hl]

/-- Witness for C10: a cycle that observes the stop signal. -/
theorem C10_always_errors_witness :
    runControlLoop (CycleInput.mk true [] none :: ([] : List (CycleInput Unit)))
        = LoopExit.stopSignal
  ∧ (startThermalControl (HsState.mk false 0 [])
        (CycleInput.mk true [] none :: ([] : List (CycleInput Unit))) none []).1
      = some CtrlErr.controllerStopped :=
  ⟨by simp [runControlLoop],
   (C10_always_errors (HsState.mk false 0 [])
      (CycleInput.mk true [] none :: ([] : List (CycleInput Unit))) none []).2
     (by simp [runControlLoop])⟩
